import Mathlib

/-!
Shallow embedding of the FreeCAD "Transform" macro
(src/scripts/transform/transform.py).  Numeric values read from the host
(slider values, step sizes, snap distances, coordinates) are modelled as
rationals, and the host document is modelled only as far as the macro
reads or writes it: placements as a map from object names to vectors for
the translation handlers, and an explicit object list for the
group-removal code path.  GUI side effects that feed nothing back into
the computation (status-bar text, line highlighting, label text, view
updates) are not modelled.
-/

namespace Transform

/-- A 3D vector, modelling FreeCAD.Vector. -/
structure Vec3 where
  x : Rat
  y : Rat
  z : Rat
deriving DecidableEq, Repr

/-- A marker line object as checkSnapping reads it: its label and the
coordinates X1, Y1, Z1 of its first endpoint. -/
structure MarkerLine where
  label : String
  X1 : Rat
  Y1 : Rat
  Z1 : Rat
deriving DecidableEq, Repr

/-- ObjectParameters (transform.py): a selected object's captured
parameters.  The design object itself is referred to by its document
name. -/
structure ObjectParameters where
  objName : String
  base : Vec3
  center : Vec3
  boundingBoxEnabled : Bool
deriving DecidableEq, Repr

/-- Python str.startswith: does s start with p?  Stated on the
character lists so that it evaluates by kernel reduction. -/
def strStartsWith (s p : String) : Bool :=
  p.data.isPrefixOf s.data

/-- LINE_CENTER_X_LABEL_PREFIX, i.e. "line_center_cx". -/
def labelPfxX : String := "line_center_cx"

/-- LINE_CENTER_Y_LABEL_PREFIX, i.e. "line_center_cy". -/
def labelPfxY : String := "line_center_cy"

/-- LINE_CENTER_Z_LABEL_PREFIX, i.e. "line_center_cz". -/
def labelPfxZ : String := "line_center_cz"

/-- The inner loop of checkSnapping over self.centerLinesParams, for one
object.  ax, ay, az are the current axis translations, ncx, ncy, ncz the
translated center coordinates of the object being scanned.  Mirrors the
if / elif chain on abs(axisTranslation) > 0 and the per-line threshold
test, returning the snapped line together with the updated translations
at the first line that satisfies the test (the Python loop sets
snapped = True and breaks there). -/
def scanLines (snapD ax ay az ncx ncy ncz : Rat) :
    List MarkerLine → Option (MarkerLine × Rat × Rat × Rat)
  | [] => none
  | l :: ls =>
      if 0 < |ax| then
        if (strStartsWith l.label labelPfxY || strStartsWith l.label labelPfxZ)
            ∧ |l.X1 - ncx| ≤ snapD then
          some (l, ax + (l.X1 - ncx), ay, az)
        else scanLines snapD ax ay az ncx ncy ncz ls
      else if 0 < |ay| then
        if (strStartsWith l.label labelPfxX || strStartsWith l.label labelPfxZ)
            ∧ |l.Y1 - ncy| ≤ snapD then
          some (l, ax, ay + (l.Y1 - ncy), az)
        else scanLines snapD ax ay az ncx ncy ncz ls
      else if 0 < |az| then
        if (strStartsWith l.label labelPfxX || strStartsWith l.label labelPfxY)
            ∧ |l.Z1 - ncz| ≤ snapD then
          some (l, ax, ay, az + (l.Z1 - ncz))
        else scanLines snapD ax ay az ncx ncy ncz ls
      else scanLines snapD ax ay az ncx ncy ncz ls

/-- The outer loop of checkSnapping over self.selectedObjsParams: the
first object whose line scan snaps determines the result (the Python
loop breaks as soon as snapped is True). -/
def scanObjects (lines : List MarkerLine) (snapD ax ay az : Rat) :
    List ObjectParameters → Option (ObjectParameters × MarkerLine × Rat × Rat × Rat)
  | [] => none
  | o :: os =>
      match scanLines snapD ax ay az (o.center.x + ax) (o.center.y + ay)
          (o.center.z + az) lines with
      | some (l, ax2, ay2, az2) => some (o, l, ax2, ay2, az2)
      | none => scanObjects lines snapD ax ay az os

/-- checkSnapping (transform.py): returns the axis translations after
snapping.  When some object snapped to some line, the adjusted
translations (axisXTranslation2 etc.) are written back; otherwise the
translations are left unchanged. -/
def checkSnapping (sel : List ObjectParameters) (lines : List MarkerLine)
    (snapD ax ay az : Rat) : Rat × Rat × Rat :=
  match scanObjects lines snapD ax ay az sel with
  | some (_, _, ax2, ay2, az2) => (ax2, ay2, az2)
  | none => (ax, ay, az)

/-- The transient state of the macro window that the translation
handlers read and write.  doc maps a document object's name to its
current placement base. -/
structure TransformState where
  transformActive : Bool
  selectedObjsParams : List ObjectParameters
  centerLinesParams : List MarkerLine
  deltaTranslation : Rat
  snapDistance : Rat
  chkSnap : Bool
  axisXTranslation : Rat
  axisYTranslation : Rat
  axisZTranslation : Rat
  sldTranslateX : Int
  sldTranslateY : Int
  sldTranslateZ : Int
  doc : String → Vec3

/-- The axis translations one loop iteration of translateSelection
computes: x, y, z scaled by deltaTranslation, then adjusted by
checkSnapping when the snap checkbox is checked. -/
def trVec (s : TransformState) (x y z : Rat) : Rat × Rat × Rat :=
  let ax := x * s.deltaTranslation
  let ay := y * s.deltaTranslation
  let az := z * s.deltaTranslation
  if s.chkSnap then
    checkSnapping s.selectedObjsParams s.centerLinesParams s.snapDistance ax ay az
  else (ax, ay, az)

/-- One iteration of the loop in translateSelection: recompute the axis
translations for this slider position, snap if enabled, and set the
object's placement base to its captured base plus the translations. -/
def translateStep (s : TransformState) (x y z : Rat) (o : ObjectParameters) :
    TransformState :=
  let t := trVec s x y z
  { s with
      axisXTranslation := t.1
      axisYTranslation := t.2.1
      axisZTranslation := t.2.2
      doc := fun n =>
        if n = o.objName then
          ⟨o.base.x + t.1, o.base.y + t.2.1, o.base.z + t.2.2⟩
        else s.doc n }

/-- The loop of translateSelection over self.selectedObjsParams. -/
def translateLoop (s : TransformState) (x y z : Rat) :
    List ObjectParameters → TransformState
  | [] => s
  | o :: os => translateLoop (translateStep s x y z o) x y z os

/-- translateSelection (transform.py).  With an empty selection it only
shows a message; with no active transform it zeroes the three
translation sliders and the translation counters and returns; otherwise
it runs the translation loop over the selection. -/
def translateSelection (s : TransformState) (x y z : Rat) : TransformState :=
  if s.selectedObjsParams.length = 0 then s
  else if s.transformActive = false then
    { s with
        sldTranslateX := 0
        sldTranslateY := 0
        sldTranslateZ := 0
        axisXTranslation := 0
        axisYTranslation := 0
        axisZTranslation := 0 }
  else translateLoop s x y z s.selectedObjsParams

/-- sldTranslateXChanged: translate by the X slider's value only. -/
def sldTranslateXChanged (s : TransformState) : TransformState :=
  translateSelection s (s.sldTranslateX : Rat) 0 0

/-- sldTranslateYChanged: translate by the Y slider's value only. -/
def sldTranslateYChanged (s : TransformState) : TransformState :=
  translateSelection s 0 (s.sldTranslateY : Rat) 0

/-- sldTranslateZChanged: translate by the Z slider's value only. -/
def sldTranslateZChanged (s : TransformState) : TransformState :=
  translateSelection s 0 0 (s.sldTranslateZ : Rat)

/-- The placement base one run of translateSelection assigns to an
object captured with base b, as a function of the captured state and the
slider arguments. -/
def mkNewBase (s : TransformState) (x y z : Rat) (b : Vec3) : Vec3 :=
  let t := trVec s x y z
  ⟨b.x + t.1, b.y + t.2.1, b.z + t.2.2⟩

/-- Run a sequence of slider value-changed events, each delivering a
(x, y, z) argument triple to translateSelection. -/
def runEvents (s : TransformState) (evs : List (Rat × Rat × Rat)) : TransformState :=
  evs.foldl (fun st e => translateSelection st e.1 e.2.1 e.2.2) s

/-- An RGBA color with components in the unit interval, modelling the
tuples stored in self.markerLineColor. -/
abbrev Color : Type := Rat × Rat × Rat × Rat

/-- btnDefaultLineColorClicked (transform.py): r, g, b are the integer
components of the color returned by the dialog; markerLineColor is
reassigned unless r == g == b == 0 (the canceled-dialog sentinel). -/
def btnDefaultLineColorClicked (old : Color) (r g b : Nat) : Color :=
  if ¬(r = g ∧ g = b ∧ b = 0) then
    ((r : Rat) / 255, (g : Rat) / 255, (b : Rat) / 255, 0)
  else old

/-- A document object for the group-removal code path: its name, label,
TypeId, whether type(obj.Shape) == Part.Face, and, for group objects,
the names of the members listed by obj.Group. -/
structure DocObj where
  name : String
  label : String
  typeId : String
  shapeIsFace : Bool
  memberNames : List String
deriving DecidableEq, Repr

/-- App.ActiveDocument.getObjectsByLabel: all document objects carrying
the given label. -/
def getObjectsByLabel (doc : List DocObj) (lbl : String) : List DocObj :=
  doc.filter (fun o => o.label == lbl)

/-- getGroup (transform.py) on the autoCreate = False paths used by
getGroupObjects and removeGroup: the first object with the given label
whose TypeId is App::DocumentObjectGroup, if any. -/
def getGroup (doc : List DocObj) (lbl : String) : Option DocObj :=
  (getObjectsByLabel doc lbl).find? (fun o => o.typeId == "App::DocumentObjectGroup")

/-- getGroupObjects (transform.py), restricted to the objects it
returns (the captured placement data plays no role in removal): the
members of the group whose shape is not a Part.Face; Face-shaped members
are only reported to the console and dropped. -/
def getGroupObjects (doc : List DocObj) (lbl : String) : List DocObj :=
  match getGroup doc lbl with
  | none => []
  | some g =>
    (g.memberNames.filterMap
      (fun n => doc.find? (fun o => o.name == n))).filter
        (fun o => !o.shapeIsFace)

/-- removeObject (transform.py): App.ActiveDocument.removeObject of the
object's name. -/
def removeObject (doc : List DocObj) (o : DocObj) : List DocObj :=
  doc.filter (fun p => !(p.name == o.name))

/-- removeObjectsByLabel (transform.py): remove, one by one, every
object carrying the given label. -/
def removeObjectsByLabel (doc : List DocObj) (lbl : String) : List DocObj :=
  (getObjectsByLabel doc lbl).foldl removeObject doc

/-- removeGroup (transform.py): remove the objects reported by
getGroupObjects, then the group object itself by its label. -/
def removeGroup (doc : List DocObj) (lbl : String) : List DocObj :=
  removeObjectsByLabel ((getGroupObjects doc lbl).foldl removeObject doc) lbl

/-- A sub-object of a selected group, as the filtering loop of
getSelectedObjects reads it.  typeIdR models the TypeId attribute
access: none means the access raises an exception. -/
structure SubObj where
  label : String
  typeIdR : Option String
deriving DecidableEq, Repr

/-- A top-level selection candidate of getSelectedObjects, with the
sub-objects its Group attribute would list. -/
structure Cand where
  label : String
  typeIdR : Option String
  members : List SubObj
deriving DecidableEq, Repr

/-- The allowedTypeIds list of getSelectedObjects. -/
def allowedTypeIds : List String := ["Part", "Mesh", "Image"]

/-- TypeId.split("\x3a\x3a")[0], the type root compared against
allowedTypeIds. -/
def typeIdRoot (t : String) : String := ((t.splitOn "::").headD "")

/-- The console message printed for a candidate that is filtered out. -/
def notSelectingMsg (lbl : String) : String :=
  "Not selecting \"" ++ lbl ++ "\".\n"

/-- The console message printed when classifying a group sub-object
raises an exception. -/
def cannotSelectMsg (lbl : String) : String :=
  "Exception; cannot select \"" ++ lbl ++ "\".\n"

/-- The try/except-protected body classifying one group sub-object:
append it to the accumulated selection when its type root is allowed,
otherwise log; a raising TypeId access is caught and logged. -/
def classifySub (st : List String × List String) (sub : SubObj) :
    List String × List String :=
  match sub.typeIdR with
  | some t =>
    if typeIdRoot t ∈ allowedTypeIds then (st.1, st.2 ++ [sub.label])
    else (st.1 ++ [notSelectingMsg sub.label], st.2)
  | none => (st.1 ++ [cannotSelectMsg sub.label], st.2)

/-- One iteration of the filtering loop of getSelectedObjects over a
top-level candidate.  The state is the pair (console log, labels of the
objects accepted so far); the TypeId accesses on the candidate itself
happen outside any try block, so a raising access propagates as
Except.error. -/
def filterStep (st : List String × List String) (obj : Cand) :
    Except String (List String × List String) :=
  match obj.typeIdR with
  | none => Except.error obj.label
  | some t =>
    if t = "App::DocumentObjectGroup" then
      Except.ok (obj.members.foldl classifySub st)
    else
      if typeIdRoot t ∈ allowedTypeIds then
        Except.ok (st.1, st.2 ++ [obj.label])
      else Except.ok (st.1 ++ [notSelectingMsg obj.label], st.2)

/-- The filtering loop of getSelectedObjects (transform.py) over the
host selection, threading the console log and the accepted labels and
propagating any uncaught exception. -/
def getSelectedObjects (st : List String × List String) :
    List Cand → Except String (List String × List String)
  | [] => Except.ok st
  | obj :: rest =>
    match filterStep st obj with
    | Except.error e => Except.error e
    | Except.ok st2 => getSelectedObjects st2 rest

/-- Modelled from the spec sentence "snapping is a linear
nearest-candidate scan": among the X-eligible marker lines within the
snap threshold of the translated center coordinate ncx, the X1
coordinate of a line minimizing the distance to ncx. -/
def specNearestSnapX (lines : List MarkerLine) (snapD ncx : Rat) : Option Rat :=
  ((lines.filter (fun l =>
      (strStartsWith l.label labelPfxY || strStartsWith l.label labelPfxZ)
        && decide (|l.X1 - ncx| ≤ snapD))).foldl
    (fun acc l =>
      match acc with
      | none => some l
      | some m => if |l.X1 - ncx| < |m.X1 - ncx| then some l else some m)
    none).map (fun l => l.X1)

/-- The per-line snap predicate on the X axis: the line is labelled as a
Y- or Z-center line and its X1 coordinate is within the snap distance of
the translated center coordinate ncx. -/
def snapPredX (d ncx : Rat) (l : MarkerLine) : Bool :=
  (strStartsWith l.label labelPfxY || strStartsWith l.label labelPfxZ)
    && decide (|l.X1 - ncx| ≤ d)

/-- The per-line snap predicate on the Y axis. -/
def snapPredY (d ncy : Rat) (l : MarkerLine) : Bool :=
  (strStartsWith l.label labelPfxX || strStartsWith l.label labelPfxZ)
    && decide (|l.Y1 - ncy| ≤ d)

/-- The per-line snap predicate on the Z axis. -/
def snapPredZ (d ncz : Rat) (l : MarkerLine) : Bool :=
  (strStartsWith l.label labelPfxX || strStartsWith l.label labelPfxY)
    && decide (|l.Z1 - ncz| ≤ d)

lemma scanLines_findX (d ax ay az ncx ncy ncz : Rat) (lines : List MarkerLine)
    (hax : 0 < |ax|) :
    scanLines d ax ay az ncx ncy ncz lines =
      (lines.find? (snapPredX d ncx)).map (fun l => (l, ax + (l.X1 - ncx), ay, az)) := by
  induction lines with
  | nil => simp [scanLines]
  | cons l ls ih =>
    by_cases h : (strStartsWith l.label labelPfxY || strStartsWith l.label labelPfxZ)
        ∧ |l.X1 - ncx| ≤ d
    · have hp : snapPredX d ncx l = true := by
        simp only [snapPredX, Bool.and_eq_true, decide_eq_true_eq]
        exact ⟨h.1, h.2⟩
      rw [scanLines, if_pos hax, if_pos h, List.find?_cons_of_pos _ hp]
      simp
    · have hp : ¬ snapPredX d ncx l = true := by
        simp only [snapPredX, Bool.and_eq_true, decide_eq_true_eq]
        exact h
      rw [scanLines, if_pos hax, if_neg h, List.find?_cons_of_neg _ hp, ih]

lemma scanLines_findY (d ax ay az ncx ncy ncz : Rat) (lines : List MarkerLine)
    (hax : ¬ 0 < |ax|) (hay : 0 < |ay|) :
    scanLines d ax ay az ncx ncy ncz lines =
      (lines.find? (snapPredY d ncy)).map (fun l => (l, ax, ay + (l.Y1 - ncy), az)) := by
  induction lines with
  | nil => simp [scanLines]
  | cons l ls ih =>
    by_cases h : (strStartsWith l.label labelPfxX || strStartsWith l.label labelPfxZ)
        ∧ |l.Y1 - ncy| ≤ d
    · have hp : snapPredY d ncy l = true := by
        simp only [snapPredY, Bool.and_eq_true, decide_eq_true_eq]
        exact ⟨h.1, h.2⟩
      rw [scanLines, if_neg hax, if_pos hay, if_pos h, List.find?_cons_of_pos _ hp]
      simp
    · have hp : ¬ snapPredY d ncy l = true := by
        simp only [snapPredY, Bool.and_eq_true, decide_eq_true_eq]
        exact h
      rw [scanLines, if_neg hax, if_pos hay, if_neg h, List.find?_cons_of_neg _ hp, ih]

lemma scanLines_findZ (d ax ay az ncx ncy ncz : Rat) (lines : List MarkerLine)
    (hax : ¬ 0 < |ax|) (hay : ¬ 0 < |ay|) (haz : 0 < |az|) :
    scanLines d ax ay az ncx ncy ncz lines =
      (lines.find? (snapPredZ d ncz)).map (fun l => (l, ax, ay, az + (l.Z1 - ncz))) := by
  induction lines with
  | nil => simp [scanLines]
  | cons l ls ih =>
    by_cases h : (strStartsWith l.label labelPfxX || strStartsWith l.label labelPfxY)
        ∧ |l.Z1 - ncz| ≤ d
    · have hp : snapPredZ d ncz l = true := by
        simp only [snapPredZ, Bool.and_eq_true, decide_eq_true_eq]
        exact ⟨h.1, h.2⟩
      rw [scanLines, if_neg hax, if_neg hay, if_pos haz, if_pos h, List.find?_cons_of_pos _ hp]
      simp
    · have hp : ¬ snapPredZ d ncz l = true := by
        simp only [snapPredZ, Bool.and_eq_true, decide_eq_true_eq]
        exact h
      rw [scanLines, if_neg hax, if_neg hay, if_pos haz, if_neg h, List.find?_cons_of_neg _ hp, ih]

/-- C2: the snap decision in checkSnapping is exactly the threshold
predicate abs(candidate - target) <= snapDistance, evaluated
axis-by-axis on the active axis (a marker line's fixed coordinate X1,
Y1 or Z1 against the translated object center), and the scan over the
marker-line list stops at the first line within the threshold
(List.find?); the adjustment applied is the one computed from that
first match. -/
theorem checkSnapping_threshold_first_match
    (d ax ay az ncx ncy ncz : Rat) (lines : List MarkerLine) :
    (0 < |ax| →
      scanLines d ax ay az ncx ncy ncz lines =
        (lines.find? (snapPredX d ncx)).map (fun l => (l, ax + (l.X1 - ncx), ay, az)))
    ∧ (¬ 0 < |ax| → 0 < |ay| →
      scanLines d ax ay az ncx ncy ncz lines =
        (lines.find? (snapPredY d ncy)).map (fun l => (l, ax, ay + (l.Y1 - ncy), az)))
    ∧ (¬ 0 < |ax| → ¬ 0 < |ay| → 0 < |az| →
      scanLines d ax ay az ncx ncy ncz lines =
        (lines.find? (snapPredZ d ncz)).map (fun l => (l, ax, ay, az + (l.Z1 - ncz)))) :=
  ⟨fun hax => scanLines_findX d ax ay az ncx ncy ncz lines hax,
   fun hax hay => scanLines_findY d ax ay az ncx ncy ncz lines hax hay,
   fun hax hay haz => scanLines_findZ d ax ay az ncx ncy ncz lines hax hay haz⟩

/-- Witness for checkSnapping_threshold_first_match at a concrete
input: one eligible line within the threshold on the X axis. -/
theorem checkSnapping_threshold_first_match_witness :
    scanLines 5 1 0 0 1 0 0 [⟨"line_center_cy_a", 3, 0, 0⟩] =
      (([⟨"line_center_cy_a", 3, 0, 0⟩] : List MarkerLine).find? (snapPredX 5 1)).map
        (fun l => (l, 1 + (l.X1 - 1), 0, 0)) :=
  (checkSnapping_threshold_first_match 5 1 0 0 1 0 0
    [⟨"line_center_cy_a", 3, 0, 0⟩]).1 (by norm_num)

lemma scanObjects_some {lines : List MarkerLine} {d ax ay az : Rat}
    {sel : List ObjectParameters} {o : ObjectParameters} {l : MarkerLine}
    {ax2 ay2 az2 : Rat}
    (h : scanObjects lines d ax ay az sel = some (o, l, ax2, ay2, az2)) :
    scanLines d ax ay az (o.center.x + ax) (o.center.y + ay) (o.center.z + az) lines
      = some (l, ax2, ay2, az2) := by
  induction sel with
  | nil => simp [scanObjects] at h
  | cons p ps ih =>
    rw [scanObjects] at h
    rcases hp : scanLines d ax ay az (p.center.x + ax) (p.center.y + ay)
        (p.center.z + az) lines with _ | ⟨⟨l0, bx, by0, bz⟩⟩
    · rw [hp] at h
      exact ih h
    · rw [hp] at h
      simp only [Option.some.injEq, Prod.mk.injEq] at h
      obtain ⟨ho, hl, hx, hy, hz⟩ := h
      subst ho hl hx hy hz
      exact hp

lemma checkSnapping_of_scanObjects {sel : List ObjectParameters}
    {lines : List MarkerLine} {d ax ay az : Rat} {o : ObjectParameters}
    {l : MarkerLine} {ax2 ay2 az2 : Rat}
    (h : scanObjects lines d ax ay az sel = some (o, l, ax2, ay2, az2)) :
    checkSnapping sel lines d ax ay az = (ax2, ay2, az2) := by
  rw [checkSnapping, h]

/-- C8: when the snap scan reports a snap for an object o at a line l,
the applied translations satisfy center + translation = line coordinate
exactly on the active axis (X1 for X, Y1 for Y, Z1 for Z), the other two
translations are unchanged, the active axis is the first of X, Y, Z with
a nonzero translation, and checkSnapping applies exactly these adjusted
translations. -/
theorem checkSnapping_snap_exact
    (sel : List ObjectParameters) (lines : List MarkerLine)
    (d ax ay az ax2 ay2 az2 : Rat) (o : ObjectParameters) (l : MarkerLine)
    (h : scanObjects lines d ax ay az sel = some (o, l, ax2, ay2, az2)) :
    checkSnapping sel lines d ax ay az = (ax2, ay2, az2)
    ∧ (0 < |ax| → o.center.x + ax2 = l.X1 ∧ ay2 = ay ∧ az2 = az)
    ∧ (¬ 0 < |ax| → 0 < |ay| → o.center.y + ay2 = l.Y1 ∧ ax2 = ax ∧ az2 = az)
    ∧ (¬ 0 < |ax| → ¬ 0 < |ay| → 0 < |az| →
        o.center.z + az2 = l.Z1 ∧ ax2 = ax ∧ ay2 = ay) := by
  have hscan := scanObjects_some h
  refine ⟨checkSnapping_of_scanObjects h, ?_, ?_, ?_⟩
  · intro hax
    rw [scanLines_findX d ax ay az _ _ _ lines hax] at hscan
    rcases hfind : (lines.find? (snapPredX d (o.center.x + ax))) with _ | l0
    · rw [hfind] at hscan
      simp at hscan
    · rw [hfind] at hscan
      simp only [Option.map_some', Option.some.injEq, Prod.mk.injEq] at hscan
      obtain ⟨hl, hx, hy, hz⟩ := hscan
      subst hl hx hy hz
      refine ⟨by ring, rfl, rfl⟩
  · intro hax hay
    rw [scanLines_findY d ax ay az _ _ _ lines hax hay] at hscan
    rcases hfind : (lines.find? (snapPredY d (o.center.y + ay))) with _ | l0
    · rw [hfind] at hscan
      simp at hscan
    · rw [hfind] at hscan
      simp only [Option.map_some', Option.some.injEq, Prod.mk.injEq] at hscan
      obtain ⟨hl, hx, hy, hz⟩ := hscan
      subst hl hx hy hz
      refine ⟨by ring, rfl, rfl⟩
  · intro hax hay haz
    rw [scanLines_findZ d ax ay az _ _ _ lines hax hay haz] at hscan
    rcases hfind : (lines.find? (snapPredZ d (o.center.z + az))) with _ | l0
    · rw [hfind] at hscan
      simp at hscan
    · rw [hfind] at hscan
      simp only [Option.map_some', Option.some.injEq, Prod.mk.injEq] at hscan
      obtain ⟨hl, hx, hy, hz⟩ := hscan
      subst hl hx hy hz
      refine ⟨by ring, rfl, rfl⟩

/-- Witness for checkSnapping_snap_exact: an object centered at the
origin, translated by 1 on X, snapping to a Y-center line at X1 = 2; the
adjusted X translation is 2 and the translated center lands exactly on
the line. -/
theorem checkSnapping_snap_exact_witness :
    checkSnapping [⟨"obj", ⟨0, 0, 0⟩, ⟨0, 0, 0⟩, false⟩]
        [⟨"line_center_cy_m", 2, 0, 0⟩] 5 1 0 0 = (2, 0, 0)
    ∧ (0 < |(1 : Rat)| →
        (⟨"obj", ⟨0, 0, 0⟩, ⟨0, 0, 0⟩, false⟩ : ObjectParameters).center.x + 2
          = (⟨"line_center_cy_m", 2, 0, 0⟩ : MarkerLine).X1
        ∧ (0 : Rat) = 0 ∧ (0 : Rat) = 0) := by
  have h := checkSnapping_snap_exact
    [⟨"obj", ⟨0, 0, 0⟩, ⟨0, 0, 0⟩, false⟩] [⟨"line_center_cy_m", 2, 0, 0⟩]
    5 1 0 0 2 0 0 ⟨"obj", ⟨0, 0, 0⟩, ⟨0, 0, 0⟩, false⟩ ⟨"line_center_cy_m", 2, 0, 0⟩
    (by norm_num [scanObjects, scanLines, strStartsWith, labelPfxY, labelPfxZ])
  exact ⟨h.1, h.2.1⟩

/-- C3 counterexample: the snap is NOT to the nearest in-threshold
line.  An object centered at the origin is translated by 1 on X; both
marker lines are within the snap distance 5 of the translated center
(differences 2 and 0), the nearest one has X1 = 1, yet the applied
translation is 3: the center lands on the first line in list order
(X1 = 3), not on the nearest line (X1 = 1). -/
theorem checkSnapping_not_nearest_cex :
    checkSnapping [⟨"obj", ⟨0, 0, 0⟩, ⟨0, 0, 0⟩, false⟩]
        [⟨"line_center_cy_a", 3, 0, 0⟩, ⟨"line_center_cy_b", 1, 0, 0⟩] 5 1 0 0
      = (3, 0, 0)
    ∧ specNearestSnapX [⟨"line_center_cy_a", 3, 0, 0⟩, ⟨"line_center_cy_b", 1, 0, 0⟩]
        5 ((0 : Rat) + 1) = some 1
    ∧ ((0 : Rat) + 3 ≠ 1) := by
  refine ⟨?_, ?_, by norm_num⟩
  · norm_num [checkSnapping, scanObjects, scanLines, strStartsWith,
      labelPfxY, labelPfxZ]
  · norm_num [specNearestSnapX, strStartsWith, labelPfxY, labelPfxZ]

/-- C3 amended: snapping is a linear scan over the marker-line objects
that applies the FIRST line (in list order) whose coordinate difference
is within the snap threshold, not the nearest such line; shown here for
a single selected object translated on the X axis. -/
theorem checkSnapping_first_within_threshold (o : ObjectParameters)
    (lines : List MarkerLine) (d ax ay az : Rat) (hax : 0 < |ax|) :
    checkSnapping [o] lines d ax ay az =
      match lines.find? (snapPredX d (o.center.x + ax)) with
      | some l => (ax + (l.X1 - (o.center.x + ax)), ay, az)
      | none => (ax, ay, az) := by
  have hsl := scanLines_findX d ax ay az (o.center.x + ax) (o.center.y + ay)
    (o.center.z + az) lines hax
  rcases hfind : lines.find? (snapPredX d (o.center.x + ax)) with _ | l
  · rw [hfind] at hsl
    simp only [Option.map_none'] at hsl
    rw [checkSnapping, scanObjects, hsl]
    simp [scanObjects]
  · rw [hfind] at hsl
    simp only [Option.map_some'] at hsl
    rw [checkSnapping, scanObjects, hsl]

/-- Witness for checkSnapping_first_within_threshold at the inputs of
the counterexample: the first-match characterization evaluates there. -/
theorem checkSnapping_first_within_threshold_witness :
    checkSnapping [⟨"obj", ⟨0, 0, 0⟩, ⟨0, 0, 0⟩, false⟩]
        [⟨"line_center_cy_a", 3, 0, 0⟩, ⟨"line_center_cy_b", 1, 0, 0⟩] 5 1 0 0
      = match ([⟨"line_center_cy_a", 3, 0, 0⟩, ⟨"line_center_cy_b", 1, 0, 0⟩]
            : List MarkerLine).find?
          (snapPredX 5 ((⟨"obj", ⟨0, 0, 0⟩, ⟨0, 0, 0⟩, false⟩
            : ObjectParameters).center.x + 1)) with
        | some l => (1 + (l.X1 - ((⟨"obj", ⟨0, 0, 0⟩, ⟨0, 0, 0⟩, false⟩
            : ObjectParameters).center.x + 1)), 0, 0)
        | none => (1, 0, 0) :=
  checkSnapping_first_within_threshold ⟨"obj", ⟨0, 0, 0⟩, ⟨0, 0, 0⟩, false⟩
    [⟨"line_center_cy_a", 3, 0, 0⟩, ⟨"line_center_cy_b", 1, 0, 0⟩] 5 1 0 0
    (by norm_num)

lemma trVec_translateStep (s : TransformState) (x y z x2 y2 z2 : Rat)
    (o : ObjectParameters) :
    trVec (translateStep s x y z o) x2 y2 z2 = trVec s x2 y2 z2 := rfl

lemma mkNewBase_translateStep (s : TransformState) (x y z x2 y2 z2 : Rat)
    (o : ObjectParameters) (b : Vec3) :
    mkNewBase (translateStep s x y z o) x2 y2 z2 b = mkNewBase s x2 y2 z2 b := rfl

lemma translateLoop_doc (x y z : Rat) :
    ∀ (l : List ObjectParameters) (s : TransformState) (n : String) (b : Vec3),
    (∀ p ∈ l, p.objName = n → p.base = b) →
    (translateLoop s x y z l).doc n =
      if l.any (fun p => p.objName == n) then mkNewBase s x y z b else s.doc n
  | [], s, n, b, _ => by simp [translateLoop]
  | p :: ps, s, n, b, hb => by
    rw [translateLoop]
    rw [translateLoop_doc x y z ps (translateStep s x y z p) n b
      (fun q hq hqn => hb q (List.mem_cons_of_mem p hq) hqn)]
    rw [mkNewBase_translateStep]
    by_cases hps : ps.any (fun q => q.objName == n)
    · rw [if_pos hps, if_pos (by simp [List.any_cons, hps])]
    · rw [if_neg hps]
      by_cases hpn : p.objName = n
      · rw [if_pos (by simp [List.any_cons, hpn])]
        have hbase : p.base = b := hb p (List.mem_cons_self p ps) hpn
        simp only [translateStep, mkNewBase]
        rw [if_pos hpn.symm, hbase]
      · rw [if_neg (by simp [List.any_cons, hpn, hps])]
        simp only [translateStep]
        rw [if_neg (fun hc => hpn hc.symm)]

lemma translateSelection_doc_mem (s : TransformState) (x y z : Rat)
    (o : ObjectParameters) (hact : s.transformActive = true)
    (ho : o ∈ s.selectedObjsParams)
    (hb : ∀ p ∈ s.selectedObjsParams, p.objName = o.objName → p.base = o.base) :
    (translateSelection s x y z).doc o.objName = mkNewBase s x y z o.base := by
  have hne : s.selectedObjsParams.length ≠ 0 := by
    intro h
    rw [List.length_eq_zero] at h
    rw [h] at ho
    exact absurd ho (List.not_mem_nil o)
  rw [translateSelection, if_neg hne, if_neg (by rw [hact]; simp)]
  rw [translateLoop_doc x y z s.selectedObjsParams s o.objName o.base hb]
  rw [if_pos (List.any_eq_true.mpr ⟨o, ho, by simp⟩)]

/-- C1: with a transform active and snapping disabled, each translation
slider handler sets every selected object's placement base to the base
captured at drag start plus the axis offset: the slider value times
deltaTranslation on that slider's axis, zero on the other two axes. -/
theorem sldChanged_sets_base_plus_axis_offset (s : TransformState)
    (o : ObjectParameters) (hact : s.transformActive = true)
    (hsnap : s.chkSnap = false) (ho : o ∈ s.selectedObjsParams)
    (hb : ∀ p ∈ s.selectedObjsParams, p.objName = o.objName → p.base = o.base) :
    (sldTranslateXChanged s).doc o.objName =
      ⟨o.base.x + (s.sldTranslateX : Rat) * s.deltaTranslation, o.base.y, o.base.z⟩
    ∧ (sldTranslateYChanged s).doc o.objName =
      ⟨o.base.x, o.base.y + (s.sldTranslateY : Rat) * s.deltaTranslation, o.base.z⟩
    ∧ (sldTranslateZChanged s).doc o.objName =
      ⟨o.base.x, o.base.y, o.base.z + (s.sldTranslateZ : Rat) * s.deltaTranslation⟩ := by
  refine ⟨?_, ?_, ?_⟩
  · rw [sldTranslateXChanged, translateSelection_doc_mem s _ _ _ o hact ho hb]
    simp [mkNewBase, trVec, hsnap]
  · rw [sldTranslateYChanged, translateSelection_doc_mem s _ _ _ o hact ho hb]
    simp [mkNewBase, trVec, hsnap]
  · rw [sldTranslateZChanged, translateSelection_doc_mem s _ _ _ o hact ho hb]
    simp [mkNewBase, trVec, hsnap]

/-- Witness for sldChanged_sets_base_plus_axis_offset: a single
selected object with base (7, 8, 9), step size 2 and X slider at 3 is
placed at (7 + 6, 8, 9) by the X handler. -/
theorem sldChanged_sets_base_plus_axis_offset_witness :
    (sldTranslateXChanged
        ⟨true, [⟨"obj", ⟨7, 8, 9⟩, ⟨0, 0, 0⟩, false⟩], [], 2, 1, false,
          0, 0, 0, 3, 0, 0, fun _ => ⟨0, 0, 0⟩⟩).doc "obj" =
      ⟨7 + (3 : Rat) * 2, 8, 9⟩ := by
  have h := (sldChanged_sets_base_plus_axis_offset
    ⟨true, [⟨"obj", ⟨7, 8, 9⟩, ⟨0, 0, 0⟩, false⟩], [], 2, 1, false,
      0, 0, 0, 3, 0, 0, fun _ => ⟨0, 0, 0⟩⟩
    ⟨"obj", ⟨7, 8, 9⟩, ⟨0, 0, 0⟩, false⟩ rfl rfl (by simp)
    (by intro p hp _; simp at hp; rw [hp])).1
  exact h

/-- C7: offsets are axis-aligned: with snapping disabled, a change of
one translation slider leaves the other two coordinates of every
selected object's placement base equal to the base captured at drag
start. -/
theorem sldChanged_axis_aligned (s : TransformState)
    (o : ObjectParameters) (hact : s.transformActive = true)
    (hsnap : s.chkSnap = false) (ho : o ∈ s.selectedObjsParams)
    (hb : ∀ p ∈ s.selectedObjsParams, p.objName = o.objName → p.base = o.base) :
    (((sldTranslateXChanged s).doc o.objName).y = o.base.y
      ∧ ((sldTranslateXChanged s).doc o.objName).z = o.base.z)
    ∧ (((sldTranslateYChanged s).doc o.objName).x = o.base.x
      ∧ ((sldTranslateYChanged s).doc o.objName).z = o.base.z)
    ∧ (((sldTranslateZChanged s).doc o.objName).x = o.base.x
      ∧ ((sldTranslateZChanged s).doc o.objName).y = o.base.y) := by
  refine ⟨⟨?_, ?_⟩, ⟨?_, ?_⟩, ⟨?_, ?_⟩⟩ <;>
    first
    | (rw [sldTranslateXChanged, translateSelection_doc_mem s _ _ _ o hact ho hb]
       simp [mkNewBase, trVec, hsnap])
    | (rw [sldTranslateYChanged, translateSelection_doc_mem s _ _ _ o hact ho hb]
       simp [mkNewBase, trVec, hsnap])
    | (rw [sldTranslateZChanged, translateSelection_doc_mem s _ _ _ o hact ho hb]
       simp [mkNewBase, trVec, hsnap])

/-- Witness for sldChanged_axis_aligned at the same concrete drag state
as the C1 witness. -/
theorem sldChanged_axis_aligned_witness :
    ((sldTranslateXChanged
        ⟨true, [⟨"obj", ⟨7, 8, 9⟩, ⟨0, 0, 0⟩, false⟩], [], 2, 1, false,
          0, 0, 0, 3, 0, 0, fun _ => ⟨0, 0, 0⟩⟩).doc "obj").y = (8 : Rat) :=
  ((sldChanged_axis_aligned
    ⟨true, [⟨"obj", ⟨7, 8, 9⟩, ⟨0, 0, 0⟩, false⟩], [], 2, 1, false,
      0, 0, 0, 3, 0, 0, fun _ => ⟨0, 0, 0⟩⟩
    ⟨"obj", ⟨7, 8, 9⟩, ⟨0, 0, 0⟩, false⟩ rfl rfl (by simp)
    (by intro p hp _; simp at hp; rw [hp])).1).1

/-- C10: if translateSelection runs with a non-empty selection while no
transform is active, it zeroes the three translation sliders and the
translation counters and leaves every placement (the whole document
map) unchanged. -/
theorem translateSelection_inactive_resets (s : TransformState) (x y z : Rat)
    (hne : s.selectedObjsParams ≠ [])
    (hact : s.transformActive = false) :
    translateSelection s x y z =
      { s with
          sldTranslateX := 0
          sldTranslateY := 0
          sldTranslateZ := 0
          axisXTranslation := 0
          axisYTranslation := 0
          axisZTranslation := 0 } := by
  rw [translateSelection, if_neg (by simpa using hne), if_pos hact]

/-- Witness for translateSelection_inactive_resets: a concrete inactive
state with one selected object; sliders and counters are zeroed and the
document is untouched. -/
theorem translateSelection_inactive_resets_witness :
    translateSelection
        ⟨false, [⟨"obj", ⟨7, 8, 9⟩, ⟨0, 0, 0⟩, false⟩], [], 2, 1, true,
          4, 5, 6, 3, 2, 1, fun _ => ⟨0, 0, 0⟩⟩ 3 0 0 =
      ⟨false, [⟨"obj", ⟨7, 8, 9⟩, ⟨0, 0, 0⟩, false⟩], [], 2, 1, true,
        0, 0, 0, 0, 0, 0, fun _ => ⟨0, 0, 0⟩⟩ :=
  translateSelection_inactive_resets
    ⟨false, [⟨"obj", ⟨7, 8, 9⟩, ⟨0, 0, 0⟩, false⟩], [], 2, 1, true,
      4, 5, 6, 3, 2, 1, fun _ => ⟨0, 0, 0⟩⟩ 3 0 0 (by simp) rfl

lemma translateLoop_preserves (x y z : Rat) :
    ∀ (l : List ObjectParameters) (s : TransformState),
    (translateLoop s x y z l).transformActive = s.transformActive
    ∧ (translateLoop s x y z l).selectedObjsParams = s.selectedObjsParams
    ∧ (translateLoop s x y z l).centerLinesParams = s.centerLinesParams
    ∧ (translateLoop s x y z l).deltaTranslation = s.deltaTranslation
    ∧ (translateLoop s x y z l).snapDistance = s.snapDistance
    ∧ (translateLoop s x y z l).chkSnap = s.chkSnap
  | [], s => by simp [translateLoop]
  | p :: ps, s => by
    rw [translateLoop]
    exact translateLoop_preserves x y z ps (translateStep s x y z p)

lemma translateSelection_preserves (s : TransformState) (x y z : Rat) :
    (translateSelection s x y z).transformActive = s.transformActive
    ∧ (translateSelection s x y z).selectedObjsParams = s.selectedObjsParams
    ∧ (translateSelection s x y z).centerLinesParams = s.centerLinesParams
    ∧ (translateSelection s x y z).deltaTranslation = s.deltaTranslation
    ∧ (translateSelection s x y z).snapDistance = s.snapDistance
    ∧ (translateSelection s x y z).chkSnap = s.chkSnap := by
  rw [translateSelection]
  by_cases h0 : s.selectedObjsParams.length = 0
  · rw [if_pos h0]
    exact ⟨rfl, rfl, rfl, rfl, rfl, rfl⟩
  · rw [if_neg h0]
    by_cases h1 : s.transformActive = false
    · rw [if_pos h1]
      exact ⟨rfl, rfl, rfl, rfl, rfl, rfl⟩
    · rw [if_neg h1]
      exact translateLoop_preserves x y z s.selectedObjsParams s

lemma mkNewBase_congr (s t : TransformState) (x y z : Rat) (b : Vec3)
    (h1 : t.selectedObjsParams = s.selectedObjsParams)
    (h2 : t.centerLinesParams = s.centerLinesParams)
    (h3 : t.deltaTranslation = s.deltaTranslation)
    (h4 : t.snapDistance = s.snapDistance)
    (h5 : t.chkSnap = s.chkSnap) :
    mkNewBase t x y z b = mkNewBase s x y z b := by
  simp only [mkNewBase, trVec, h1, h2, h3, h4, h5]

lemma runEvents_doc_last (o : ObjectParameters) (v : Rat × Rat × Rat) :
    ∀ (evs : List (Rat × Rat × Rat)) (s : TransformState),
    evs.getLast? = some v →
    s.transformActive = true →
    o ∈ s.selectedObjsParams →
    (∀ p ∈ s.selectedObjsParams, p.objName = o.objName → p.base = o.base) →
    (runEvents s evs).doc o.objName = mkNewBase s v.1 v.2.1 v.2.2 o.base
  | [], _, hlast, _, _, _ => by simp at hlast
  | [e], s, hlast, hact, ho, hb => by
    simp only [List.getLast?_singleton, Option.some.injEq] at hlast
    subst hlast
    rw [runEvents]
    simp only [List.foldl_cons, List.foldl_nil]
    exact translateSelection_doc_mem s _ _ _ o hact ho hb
  | e :: e2 :: rest, s, hlast, hact, ho, hb => by
    rw [List.getLast?_cons_cons] at hlast
    rw [runEvents]
    simp only [List.foldl_cons]
    have hpres := translateSelection_preserves s e.1 e.2.1 e.2.2
    have hrec := runEvents_doc_last o v (e2 :: rest)
      (translateSelection s e.1 e.2.1 e.2.2) hlast
      (by rw [hpres.1, hact]) (by rw [hpres.2.1]; exact ho)
      (by rw [hpres.2.1]; exact hb)
    rw [runEvents] at hrec
    simp only [List.foldl_cons] at hrec
    rw [hrec]
    exact mkNewBase_congr s (translateSelection s e.1 e.2.1 e.2.2) v.1 v.2.1 v.2.2
      o.base hpres.2.1 hpres.2.2.1 hpres.2.2.2.1 hpres.2.2.2.2.1 hpres.2.2.2.2.2

/-- C6: during one drag, the placement an object ends up with depends
only on the state captured at slider press and on the latest slider
value: any two sequences of value-changed events with the same final
(x, y, z) argument leave the object's placement base equal.  In
particular, delivering the same value twice yields the same placement
and offsets do not accumulate across events. -/
theorem translate_depends_on_latest_value (s : TransformState)
    (o : ObjectParameters) (evs1 evs2 : List (Rat × Rat × Rat))
    (v : Rat × Rat × Rat)
    (hact : s.transformActive = true)
    (ho : o ∈ s.selectedObjsParams)
    (hb : ∀ p ∈ s.selectedObjsParams, p.objName = o.objName → p.base = o.base)
    (h1 : evs1.getLast? = some v) (h2 : evs2.getLast? = some v) :
    (runEvents s evs1).doc o.objName = (runEvents s evs2).doc o.objName := by
  rw [runEvents_doc_last o v evs1 s h1 hact ho hb,
    runEvents_doc_last o v evs2 s h2 hact ho hb]

/-- Witness for translate_depends_on_latest_value: delivering the X
value 3 twice places the object exactly as delivering 1 and then 3. -/
theorem translate_depends_on_latest_value_witness :
    (runEvents
        ⟨true, [⟨"obj", ⟨7, 8, 9⟩, ⟨0, 0, 0⟩, false⟩], [], 2, 1, false,
          0, 0, 0, 0, 0, 0, fun _ => ⟨0, 0, 0⟩⟩
        [(3, 0, 0), (3, 0, 0)]).doc "obj" =
    (runEvents
        ⟨true, [⟨"obj", ⟨7, 8, 9⟩, ⟨0, 0, 0⟩, false⟩], [], 2, 1, false,
          0, 0, 0, 0, 0, 0, fun _ => ⟨0, 0, 0⟩⟩
        [(1, 0, 0), (3, 0, 0)]).doc "obj" :=
  translate_depends_on_latest_value
    ⟨true, [⟨"obj", ⟨7, 8, 9⟩, ⟨0, 0, 0⟩, false⟩], [], 2, 1, false,
      0, 0, 0, 0, 0, 0, fun _ => ⟨0, 0, 0⟩⟩
    ⟨"obj", ⟨7, 8, 9⟩, ⟨0, 0, 0⟩, false⟩
    [(3, 0, 0), (3, 0, 0)] [(1, 0, 0), (3, 0, 0)] (3, 0, 0)
    rfl (by simp) (by intro p hp _; simp at hp; rw [hp]) rfl rfl

lemma mem_removeObject {d : List DocObj} {o x : DocObj} :
    x ∈ removeObject d o ↔ x ∈ d ∧ x.name ≠ o.name := by
  simp [removeObject, List.mem_filter]

lemma mem_foldl_removeObject :
    ∀ (l d : List DocObj) (x : DocObj), x ∈ l.foldl removeObject d →
      x ∈ d ∧ ∀ o ∈ l, x.name ≠ o.name
  | [], _, _, h => ⟨h, by simp⟩
  | o :: os, d, x, h => by
    rw [List.foldl_cons] at h
    have hrec := mem_foldl_removeObject os (removeObject d o) x h
    have hm := mem_removeObject.mp hrec.1
    refine ⟨hm.1, ?_⟩
    intro p hp
    rcases List.mem_cons.mp hp with hpo | hpo
    · rw [hpo]
      exact hm.2
    · exact hrec.2 p hpo

lemma find?_name_of_nodup :
    ∀ (doc : List DocObj), (doc.map DocObj.name).Nodup →
      ∀ m ∈ doc, doc.find? (fun o => o.name == m.name) = some m
  | [], _, m, hm => absurd hm (List.not_mem_nil m)
  | d :: ds, hnd, m, hm => by
    rw [List.map_cons, List.nodup_cons] at hnd
    rcases List.mem_cons.mp hm with hmd | hmd
    · subst hmd
      rw [List.find?_cons_of_pos _ (by simp)]
    · have hne : d.name ≠ m.name := by
        intro he
        exact hnd.1 (he ▸ List.mem_map_of_mem DocObj.name hmd)
      rw [List.find?_cons_of_neg _ (by simp [hne])]
      exact find?_name_of_nodup ds hnd.2 m hmd

lemma mem_getGroupObjects {doc : List DocObj} {lbl : String} {g m : DocObj}
    (hnd : (doc.map DocObj.name).Nodup) (hg : getGroup doc lbl = some g)
    (hm : m ∈ doc) (hmem : m.name ∈ g.memberNames)
    (hface : m.shapeIsFace = false) :
    m ∈ getGroupObjects doc lbl := by
  rw [getGroupObjects, hg]
  rw [List.mem_filter]
  refine ⟨?_, by simp [hface]⟩
  rw [List.mem_filterMap]
  exact ⟨m.name, hmem, find?_name_of_nodup doc hnd m hm⟩

/-- C4 counterexample: removal of the temporary center-lines group is
not an unconditional deletion of every member.  A member whose shape is
a Part.Face is skipped by getGroupObjects, so after removeGroup the
face object is still in the document (while the group object itself is
gone). -/
theorem removeGroup_keeps_face_member_cex :
    removeGroup
        [⟨"g1", "lines_temp_center", "App::DocumentObjectGroup", false, ["f1"]⟩,
         ⟨"f1", "face1", "Part::Feature", true, []⟩] "lines_temp_center"
      = [⟨"f1", "face1", "Part::Feature", true, []⟩] := by rfl

/-- C4 amended: when a drag ends, removeGroup deletes from the document
every member of the temporary center-lines group whose shape is not a
Part.Face, and every object labelled as the group itself; members whose
shape is a Part.Face are only reported to the console and survive. -/
theorem removeGroup_removes_nonface_members
    (doc : List DocObj) (lbl : String) (g m : DocObj)
    (hnd : (doc.map DocObj.name).Nodup)
    (hg : getGroup doc lbl = some g)
    (hm : m ∈ doc) (hmem : m.name ∈ g.memberNames)
    (hface : m.shapeIsFace = false) :
    m ∉ removeGroup doc lbl
    ∧ ∀ o ∈ removeGroup doc lbl, o.label ≠ lbl := by
  constructor
  · intro hin
    rw [removeGroup, removeObjectsByLabel] at hin
    have h1 := mem_foldl_removeObject _ _ _ hin
    have h2 := mem_foldl_removeObject _ _ _ h1.1
    exact h2.2 m (mem_getGroupObjects hnd hg hm hmem hface) rfl
  · intro o ho hlbl
    rw [removeGroup, removeObjectsByLabel] at ho
    have h1 := mem_foldl_removeObject _ _ _ ho
    have holbl : o ∈ getObjectsByLabel
        ((getGroupObjects doc lbl).foldl removeObject doc) lbl := by
      rw [getObjectsByLabel, List.mem_filter]
      exact ⟨h1.1, by simp [hlbl]⟩
    exact h1.2 o holbl rfl

/-- Witness for removeGroup_removes_nonface_members: a temporary
center-lines group with one line member; the line is gone from the
document after removeGroup. -/
theorem removeGroup_removes_nonface_members_witness :
    (⟨"l1", "line_center_cx", "Part::Line", false, []⟩ : DocObj) ∉
      removeGroup
        [⟨"g1", "lines_temp_center", "App::DocumentObjectGroup", false, ["l1"]⟩,
         ⟨"l1", "line_center_cx", "Part::Line", false, []⟩] "lines_temp_center" :=
  (removeGroup_removes_nonface_members
    [⟨"g1", "lines_temp_center", "App::DocumentObjectGroup", false, ["l1"]⟩,
     ⟨"l1", "line_center_cx", "Part::Line", false, []⟩]
    "lines_temp_center"
    ⟨"g1", "lines_temp_center", "App::DocumentObjectGroup", false, ["l1"]⟩
    ⟨"l1", "line_center_cx", "Part::Line", false, []⟩
    (by simp) rfl (by simp) (by simp) rfl).1

/-- Whether the filtering loop finished without an uncaught
exception. -/
def isOkE (e : Except String (List String × List String)) : Bool :=
  match e with
  | Except.ok _ => true
  | Except.error _ => false

/-- C5 counterexample: an exception while classifying a directly
selected candidate (its TypeId access raises) is NOT swallowed: the
filtering loop of getSelectedObjects propagates it, because only the
group sub-object branch is wrapped in try/except. -/
theorem getSelectedObjects_propagates_cex :
    getSelectedObjects ([], []) [⟨"direct", none, []⟩] = Except.error "direct" := by
  rfl

/-- C5 amended: exceptions raised while classifying GROUP SUB-OBJECTS
are swallowed (caught and logged), so whenever every top-level
candidate's own TypeId access succeeds the filtering loop returns
normally, whatever exceptions its group members raise; an exception on
a directly selected candidate, by contrast, propagates. -/
theorem getSelectedObjects_ok_of_toplevel_ok :
    ∀ (cands : List Cand) (st : List String × List String),
    (∀ c ∈ cands, c.typeIdR ≠ none) →
    isOkE (getSelectedObjects st cands) = true
  | [], _, _ => rfl
  | c :: cs, st, h => by
    rw [getSelectedObjects]
    rcases hc : c.typeIdR with _ | t
    · exact absurd hc (h c (List.mem_cons_self c cs))
    · simp only [filterStep, hc]
      by_cases hg : t = "App::DocumentObjectGroup"
      · simp only [if_pos hg]
        exact getSelectedObjects_ok_of_toplevel_ok cs _
          (fun p hp => h p (List.mem_cons_of_mem c hp))
      · simp only [if_neg hg]
        by_cases ha : typeIdRoot t ∈ allowedTypeIds
        · simp only [if_pos ha]
          exact getSelectedObjects_ok_of_toplevel_ok cs _
            (fun p hp => h p (List.mem_cons_of_mem c hp))
        · simp only [if_neg ha]
          exact getSelectedObjects_ok_of_toplevel_ok cs _
            (fun p hp => h p (List.mem_cons_of_mem c hp))

/-- Witness for getSelectedObjects_ok_of_toplevel_ok: a selected group
whose only member raises on classification; the loop still returns
normally. -/
theorem getSelectedObjects_ok_of_toplevel_ok_witness :
    isOkE (getSelectedObjects ([], [])
      [⟨"grp", some "App::DocumentObjectGroup", [⟨"m", none⟩]⟩]) = true :=
  getSelectedObjects_ok_of_toplevel_ok
    [⟨"grp", some "App::DocumentObjectGroup", [⟨"m", none⟩]⟩] ([], [])
    (by intro c hc; simp at hc; rw [hc]; simp)

/-- C9: btnDefaultLineColorClicked leaves markerLineColor unchanged
exactly when the chosen color is pure black (the canceled-dialog
sentinel r == g == b == 0); any non-black color is stored as its
components divided by 255 with alpha 0. -/
theorem lineColor_black_unchanged (old : Color) (r g b : Nat) :
    (r = 0 ∧ g = 0 ∧ b = 0 → btnDefaultLineColorClicked old r g b = old)
    ∧ (¬(r = 0 ∧ g = 0 ∧ b = 0) →
        btnDefaultLineColorClicked old r g b
          = ((r : Rat) / 255, (g : Rat) / 255, (b : Rat) / 255, 0)) := by
  constructor
  · rintro ⟨hr, hg, hb⟩
    subst hr
    subst hg
    subst hb
    rw [btnDefaultLineColorClicked, if_neg (not_not_intro ⟨rfl, rfl, rfl⟩)]
  · intro h
    rw [btnDefaultLineColorClicked, if_pos]
    intro hc
    exact h ⟨by omega, by omega, hc.2.2⟩

/-- Witness for lineColor_black_unchanged: black keeps the old color;
(51, 0, 0) is stored componentwise divided by 255. -/
theorem lineColor_black_unchanged_witness :
    btnDefaultLineColorClicked (1, 1, 1, 0) 0 0 0 = (1, 1, 1, 0)
    ∧ btnDefaultLineColorClicked (1, 1, 1, 0) 51 0 0
      = (((51 : Nat) : Rat) / 255, ((0 : Nat) : Rat) / 255,
          ((0 : Nat) : Rat) / 255, 0) :=
  ⟨(lineColor_black_unchanged (1, 1, 1, 0) 0 0 0).1 ⟨rfl, rfl, rfl⟩,
   (lineColor_black_unchanged (1, 1, 1, 0) 51 0 0).2 (by simp)⟩

end Transform
